import Mathlib

/-!
Verification of the multi-backend capture engine of this repository.

We shallow-embed the control flow of the Python modules
src/python/capture/dxgi_desktop_duplication.py,
src/python/capture/enhanced_capture.py, src/advanced_capture.py and
src/accessibility_controller.py.

External Windows / COM / graphics calls are modelled as abstract primitives
whose outcomes are supplied by an environment record; quantifying over
environments quantifies over every success / timeout / error / exception
combination of those calls, i.e. over every exit path of the embedded
function.  Named API constants referenced by the module (such as
DXGI_ERROR_NOT_CURRENTLY_AVAILABLE and the IDXGIDevice interface id, which
the module uses without defining) are treated as resolved to their intended
DXGI values, so hresult comparisons branch the way the source text intends.
-/

namespace DxgiDup

/-- Outcome of the driver primitive AcquireNextFrame as branched on by
capture_screenshot: success (hr = 0), DXGI_ERROR_WAIT_TIMEOUT, or any other
failing hresult (access lost, device removed, ...). -/
inductive AcquireOutcome where
  | success
  | timeout
  | error
  deriving DecidableEq, Repr

/-- Resource and protocol state of one DXGIOutputDuplication session
(the self fields assigned in dxgi_desktop_duplication.py, lines 291-309).
A Boolean field is true exactly when the corresponding Python attribute
holds a live object rather than None. -/
structure DuplState where
  device : Bool
  deviceContext : Bool
  dxgiOutput : Bool
  dxgiOutputDupl : Bool
  stagingTexture : Bool
  acquiredFrame : Bool
  desc : Bool
  initialized : Bool
  width : Nat
  height : Nat
  deriving DecidableEq, Repr

/-- Environment of one capture_screenshot call: outcome of AcquireNextFrame
(line 517), of the QueryInterface for ID3D11Texture2D (line 543), of Map
(line 554), and of the numpy / PIL convert-and-save block (lines 563-586),
any of which may raise through check_hresult or the libraries. -/
structure CaptureEnv where
  acquire : AcquireOutcome
  queryTextureOk : Bool
  mapOk : Bool
  convertSaveOk : Bool
  deriving DecidableEq, Repr

/-- Counts of the externally visible protocol events of one
capture_screenshot call. acquires counts successful AcquireNextFrame calls,
releases counts ReleaseFrame calls, unmaps counts Unmap calls, initCalls
counts calls of the initializer and cleanupCalls counts calls of the
resource teardown. -/
structure CaptureTrace where
  acquires : Nat
  releases : Nat
  unmaps : Nat
  initCalls : Nat
  cleanupCalls : Nat
  deriving DecidableEq, Repr

/-- Model of DXGIOutputDuplication.capture_screenshot
(src/python/capture/dxgi_desktop_duplication.py, lines 497-609).

Branch map against the source:
line 507 not initialized, return None;
line 524 timeout, return None;
lines 529-533 failing hresult from the acquire, bare except, return None
(acquired_frame was never set);
line 536 acquired_frame set to True;
line 543 QueryInterface fails, check_hresult raises, outer except at
line 598 sees acquired_frame, calls ReleaseFrame once, clears the flag;
line 554 Map fails, same outer except path, one ReleaseFrame;
lines 563-594 convert and save inside try..finally: on success the finally
block runs Unmap then ReleaseFrame and clears the flag, then the filename
is returned; on an exception in the block the finally runs first (Unmap,
ReleaseFrame, flag cleared) and the outer except then sees
acquired_frame = False, so no second ReleaseFrame happens. -/
def capture_screenshot (st : DuplState) (env : CaptureEnv) :
    Option String × DuplState × CaptureTrace :=
  if st.initialized = false then
    (none, st, { acquires := 0, releases := 0, unmaps := 0, initCalls := 0, cleanupCalls := 0 })
  else
    match env.acquire with
    | .timeout =>
        (none, st, { acquires := 0, releases := 0, unmaps := 0, initCalls := 0, cleanupCalls := 0 })
    | .error =>
        (none, st, { acquires := 0, releases := 0, unmaps := 0, initCalls := 0, cleanupCalls := 0 })
    | .success =>
        let st1 : DuplState := { st with acquiredFrame := true }
        if env.queryTextureOk = false then
          (none, { st1 with acquiredFrame := false },
            { acquires := 1, releases := 1, unmaps := 0, initCalls := 0, cleanupCalls := 0 })
        else if env.mapOk = false then
          (none, { st1 with acquiredFrame := false },
            { acquires := 1, releases := 1, unmaps := 0, initCalls := 0, cleanupCalls := 0 })
        else if env.convertSaveOk then
          (some "dxgi_output.png", { st1 with acquiredFrame := false },
            { acquires := 1, releases := 1, unmaps := 1, initCalls := 0, cleanupCalls := 0 })
        else
          (none, { st1 with acquiredFrame := false },
            { acquires := 1, releases := 1, unmaps := 1, initCalls := 0, cleanupCalls := 0 })

/-- Folding capture_screenshot over a list of per-call environments,
keeping the session state (models repeated capture calls on one session). -/
def captureIter (st : DuplState) (envs : List CaptureEnv) : DuplState :=
  envs.foldl (fun s e => (capture_screenshot s e).2.1) st

/-- Model of DXGIOutputDuplication._cleanup
(src/python/capture/dxgi_desktop_duplication.py, lines 447-495): releases
every held object, clears the corresponding fields and the initialized
flag.  The desc field is not touched by the source. -/
def cleanup (st : DuplState) : DuplState :=
  { st with acquiredFrame := false, stagingTexture := false, dxgiOutputDupl := false,
            dxgiOutput := false, deviceContext := false, device := false,
            initialized := false }

/-- Outcome of the DuplicateOutput driver call (line 398): success, the
maximum-duplicator-count hresult DXGI_ERROR_NOT_CURRENTLY_AVAILABLE
(branched on at line 400), or any other failing hresult. -/
inductive DuplOutcome where
  | ok
  | notCurrentlyAvailable
  | otherError
  deriving DecidableEq, Repr

/-- Environment of one _initialize_dxgi call: outcome of each fallible
external call in source order (lines 331, 347, 370, 375, 380, 385, 393,
398, 411, 432). -/
structure InitEnv where
  hwDeviceOk : Bool
  warpDeviceOk : Bool
  queryDxgiDeviceOk : Bool
  getParentOk : Bool
  enumOutputsOk : Bool
  getOutputDescOk : Bool
  queryOutput1Ok : Bool
  duplicateOutput : DuplOutcome
  getDuplDescOk : Bool
  createTextureOk : Bool
  deriving DecidableEq, Repr

/-- A session state holding no resources at all, as set up by __init__
before _initialize_dxgi runs (lines 298-309). -/
def freshState : DuplState :=
  { device := false, deviceContext := false, dxgiOutput := false, dxgiOutputDupl := false,
    stagingTexture := false, acquiredFrame := false, desc := false, initialized := false,
    width := 0, height := 0 }

/-- Model of DXGIOutputDuplication._initialize_dxgi
(src/python/capture/dxgi_desktop_duplication.py, lines 314-445).
sw and sh are the desktop coordinates read from the output description
(lines 388-389).  Returns the resulting session state and the returned
Boolean.  The whole body is wrapped in try..except Exception (line 442),
so a check_hresult failure runs _cleanup and returns False instead of
raising; the function never raises to the constructor.

Branch map: lines 345-362 hardware then WARP device creation, both failing
returns False holding nothing; lines 365-366 store device and context;
each following check_hresult failure raises into the except block, which
calls _cleanup; lines 400-402 on DXGI_ERROR_NOT_CURRENTLY_AVAILABLE the
function returns False directly, without any cleanup, with the device and
device context still stored; line 407 stores the duplication object;
line 415 stores the descriptor; line 435 stores the staging texture;
line 438 sets initialized. -/
def initialize_dxgi (env : InitEnv) (sw sh : Nat) : DuplState × Bool :=
  if env.hwDeviceOk = false ∧ env.warpDeviceOk = false then
    (freshState, false)
  else
    let st1 : DuplState := { freshState with device := true, deviceContext := true }
    if env.queryDxgiDeviceOk = false then (cleanup st1, false)
    else if env.getParentOk = false then (cleanup st1, false)
    else if env.enumOutputsOk = false then (cleanup st1, false)
    else if env.getOutputDescOk = false then (cleanup st1, false)
    else
      let st2 : DuplState := { st1 with width := sw, height := sh }
      if env.queryOutput1Ok = false then (cleanup st2, false)
      else
        match env.duplicateOutput with
        | .notCurrentlyAvailable => (st2, false)
        | .otherError => (cleanup st2, false)
        | .ok =>
            let st3 : DuplState := { st2 with dxgiOutputDupl := true }
            if env.getDuplDescOk = false then (cleanup st3, false)
            else
              let st4 : DuplState := { st3 with desc := true }
              if env.createTextureOk = false then (cleanup st4, false)
              else ({ st4 with stagingTexture := true, initialized := true }, true)

/-- All four session-owned driver resources of the spec data model
(device, device context, output-duplication handle, staging texture) are
released. -/
def resourcesReleased (st : DuplState) : Prop :=
  st.device = false ∧ st.deviceContext = false ∧
  st.dxgiOutputDupl = false ∧ st.stagingTexture = false

instance (st : DuplState) : Decidable (resourcesReleased st) := by
  unfold resourcesReleased
  infer_instance

/-- The environment reaches the DuplicateOutput call: a device was created
and every check up to line 393 passed. -/
def reachesDuplicate (env : InitEnv) : Prop :=
  (env.hwDeviceOk = true ∨ env.warpDeviceOk = true) ∧
  env.queryDxgiDeviceOk = true ∧ env.getParentOk = true ∧
  env.enumOutputsOk = true ∧ env.getOutputDescOk = true ∧
  env.queryOutput1Ok = true

instance (env : InitEnv) : Decidable (reachesDuplicate env) := by
  unfold reachesDuplicate
  infer_instance

/-- Source byte offset of each output channel of one pixel: the numpy
fancy index [2, 1, 0] at line 575 of dxgi_desktop_duplication.py picks
source channel 2 (red), then 1 (green), then 0 (blue) out of the 4-byte
blue-first pixel. -/
def chanSrc : Nat → Nat
  | 0 => 2
  | 1 => 1
  | _ => 0

/-- Model of the pixel-conversion block of capture_screenshot
(dxgi_desktop_duplication.py, lines 563-578).  buf gives the byte of the
mapped staging texture at an absolute offset; rowPitch is the mapped
RowPitch and height the texture height.  The reshape at line 572 gives
the image RowPitch / 4 pixel columns (the whole row, padding included:
there is no slice down to the texture width anywhere), and the fancy
index at line 575 reorders the channels, so output pixel (row y, column
x, channel c) reads byte y * rowPitch + 4 * x + chanSrc c. -/
def convertFrame (buf : Nat → Nat) (height rowPitch : Nat) : List (List (List Nat)) :=
  (List.range height).map fun y =>
    (List.range (rowPitch / 4)).map fun x =>
      (List.range 3).map fun c => buf (y * rowPitch + 4 * x + chanSrc c)

end DxgiDup

namespace EnhCap

/-- One backend attempt as observed by an orchestrator loop: the method
call either returns a value (possibly None) or raises.  The payload of a
successful capture is a value of type a. -/
inductive Attempt (a : Type) where
  | ok (r : Option a)
  | raised
  deriving DecidableEq, Repr

/-- The attempt is not a success: it returned None or raised. -/
def fails {a : Type} : Attempt a → Prop
  | .ok (some _) => False
  | .ok none => True
  | .raised => True

instance {a : Type} (x : Attempt a) : Decidable (fails x) := by
  unfold fails
  cases x with
  | ok r => cases r <;> infer_instance
  | raised => infer_instance

/-- Model of the backend loop shared by
EnhancedScreenCapture.capture_screenshot (enhanced_capture.py, lines
101-107) and AdvancedScreenCapture.capture_screenshot
(advanced_capture.py, lines 242-248): each method of the list is called
in order inside try..except; a truthy result is returned immediately; a
None result or an exception is logged and the loop continues.  Returns
the first successful result together with the number of methods invoked;
each invoked method is called exactly once, in list order. -/
def runChain {a : Type} : List (Attempt a) → Option a × Nat
  | [] => (none, 0)
  | .ok (some r) :: _ => (some r, 1)
  | .ok none :: rest => ((runChain rest).1, (runChain rest).2 + 1)
  | .raised :: rest => ((runChain rest).1, (runChain rest).2 + 1)

/-- Environment of one EnhancedScreenCapture.capture_screenshot call: the
outcome of each of the five window-capture methods of the chain at lines
93-99, in order, the outcome of the capture_full_screen fallback (line
113), and the optional window handle of the request.  A successful
capture is represented by the dimensions (width, height) of the buffer
it returns. -/
structure EnhEnv where
  gdi : Attempt (Nat × Nat)
  accessibility : Attempt (Nat × Nat)
  directMemory : Attempt (Nat × Nat)
  temporaryAffinity : Attempt (Nat × Nat)
  magnification : Attempt (Nat × Nat)
  fullScreen : Attempt (Nat × Nat)
  windowHandle : Option Nat
  deriving DecidableEq, Repr

/-- The fixed method list of enhanced_capture.py, lines 93-99. -/
def methodChain (env : EnhEnv) : List (Attempt (Nat × Nat)) :=
  [env.gdi, env.accessibility, env.directMemory, env.temporaryAffinity, env.magnification]

/-- Model of EnhancedScreenCapture.capture_screenshot (enhanced_capture.py,
lines 82-118): run the five-method chain; when every method failed and a
window handle was given, call capture_full_screen once inside its own
try..except (lines 110-115) and return its result; otherwise return None
(line 118).  The model is a total function: no exception escapes, which
mirrors the per-method try..except of the source. -/
def capture_screenshot (env : EnhEnv) : Option (Nat × Nat) :=
  match (runChain (methodChain env)).1 with
  | some r => some r
  | none =>
      match env.windowHandle with
      | some _ =>
          match env.fullScreen with
          | .ok r => r
          | .raised => none
      | none => none

/-- A concrete request for window 3 on a 1920 by 1080 screen whose five
window methods all fail (alternating None results and raises) and whose
full-screen fallback succeeds. -/
def envWindowFallback : EnhEnv :=
  { gdi := .ok none, accessibility := .raised, directMemory := .ok none,
    temporaryAffinity := .raised, magnification := .ok none,
    fullScreen := .ok (some (1920, 1080)), windowHandle := some 3 }

/-- Display-affinity constants of enhanced_capture.py, lines 43-45. -/
def WDA_NONE : Nat := 0x00000000

/-- The exclude-from-capture affinity value (0x11). -/
def WDA_EXCLUDEFROMCAPTURE : Nat := 0x11

/-- The per-window state touched by the temporary-affinity backend: the
display-affinity value of the target window. -/
structure Win where
  affinity : Nat
  deriving DecidableEq, Repr

/-- Environment of one capture_using_bitblt_with_temporary_affinity call
(enhanced_capture.py, lines 337-415).  setAffinityWorks models whether
SetWindowDisplayAffinity calls of this process on this window succeed:
on Windows only the owning process may change a window affinity, so the
permission is constant over one call.  The raise flags select the
exceptional exit paths: rectRaise covers GetWindowRect and the DC and
bitmap creation (lines 368-378), bitbltRaise the BitBlt at line 383
(caught at line 384, PrintWindow is tried instead), printWindowRaise
the PrintWindow at line 386, convertRaise the bitmap conversion at lines
389-395, and saveRaise the _save_screenshot call at line 408. -/
structure AffEnv where
  getAffinityOk : Bool
  setAffinityWorks : Bool
  rectRaise : Bool
  bitbltRaise : Bool
  printWindowRaise : Bool
  convertRaise : Bool
  saveRaise : Bool
  deriving DecidableEq, Repr

/-- One SetWindowDisplayAffinity call: updates the affinity only when the
process may change it.  Its Boolean result is checked at line 363 only to
log; the restore sites ignore it. -/
def setAffinity (env : AffEnv) (w : Win) (v : Nat) : Win :=
  if env.setAffinityWorks then { w with affinity := v } else w

/-- The restore step, shared by line 404 (normal path) and by the except
handler at lines 412-414: when the saved affinity was
WDA_EXCLUDEFROMCAPTURE, set it back to the saved value. -/
def restoreAffinity (env : AffEnv) (ca : Nat) (w : Win) : Win :=
  if ca = WDA_EXCLUDEFROMCAPTURE then setAffinity env w ca else w

/-- Model of
EnhancedScreenCapture.capture_using_bitblt_with_temporary_affinity
(enhanced_capture.py, lines 337-415) for a window-handle call.  Branch
map: line 354, a failing GetWindowDisplayAffinity returns None with the
window untouched; lines 361-365, when the current affinity is
WDA_EXCLUDEFROMCAPTURE it is temporarily set to WDA_NONE (the call may
fail, in which case the code continues anyway); any exception in the
capture, conversion or save steps lands in the except handler at lines
410-415, which re-runs the restore; on the normal path the restore at
lines 403-405 runs before _save_screenshot.  Returns the capture result
and the final window state. -/
def capture_using_bitblt_with_temporary_affinity (w : Win) (env : AffEnv) :
    Option Unit × Win :=
  if env.getAffinityOk = false then (none, w)
  else
    let ca := w.affinity
    let w1 := if ca = WDA_EXCLUDEFROMCAPTURE then setAffinity env w WDA_NONE else w
    if env.rectRaise then (none, restoreAffinity env ca w1)
    else if env.bitbltRaise ∧ env.printWindowRaise then (none, restoreAffinity env ca w1)
    else if env.convertRaise then (none, restoreAffinity env ca w1)
    else
      let w2 := restoreAffinity env ca w1
      if env.saveRaise then (none, restoreAffinity env ca w2)
      else (some (), w2)

end EnhCap

namespace AccCtrl

/-- Response dictionary returned by
AccessibilityController.handle_take_screenshot
(accessibility_controller.py, lines 247-278). -/
structure Response where
  status : String
  message : String
  screenshotPath : Option String
  deriving DecidableEq, Repr

/-- Model of AccessibilityController.handle_take_screenshot: the capture
proxy call either raises (the outer except at lines 273-278 turns the
exception text into an error response) or returns an optional filename;
None becomes the fixed error response of lines 259-264 and a filename
becomes the success response of lines 268-272.  Total: the handler never
raises to the transport. -/
def handle_take_screenshot (captureOutcome : Except String (Option String)) : Response :=
  match captureOutcome with
  | .error e => { status := "error", message := e, screenshotPath := none }
  | .ok none =>
      { status := "error", message := "Failed to capture screenshot with any method",
        screenshotPath := none }
  | .ok (some f) =>
      { status := "success", message := "Screenshot saved to " ++ f,
        screenshotPath := some f }

/-- A chain environment in which every window method returned None and the
full-screen fallback returned None. -/
def envAllNone : EnhCap.EnhEnv :=
  { gdi := .ok none, accessibility := .ok none, directMemory := .ok none,
    temporaryAffinity := .ok none, magnification := .ok none,
    fullScreen := .ok none, windowHandle := some 42 }

/-- A chain environment in which every window method and the full-screen
fallback raised, each for its own backend-specific reason (the reasons
are logged by the source, lines 106-107 and 114-115, and appear nowhere
in the returned value). -/
def envAllRaise : EnhCap.EnhEnv :=
  { gdi := .raised, accessibility := .raised, directMemory := .raised,
    temporaryAffinity := .raised, magnification := .raised,
    fullScreen := .raised, windowHandle := some 42 }

end AccCtrl

namespace AdvCap

/-- The window state touched by capture_using_gdi_window_redir: the
GWL_STYLE word, the window placement (abstract value), and whether the
window has been forced to the top of the z-order. -/
structure WinState where
  style : Nat
  placement : Nat
  zTop : Bool
  deriving DecidableEq, Repr

/-- win32con.WS_DLGFRAME, cleared at line 545 of advanced_capture.py. -/
def WS_DLGFRAME : Nat := 0x400000

/-- win32con.WS_SYSMENU, cleared at line 545 of advanced_capture.py. -/
def WS_SYSMENU : Nat := 0x80000

/-- The temporary style of line 545: current_style with the WS_DLGFRAME
and WS_SYSMENU bits cleared (32-bit style words). -/
def tempStyle (s : Nat) : Nat :=
  Nat.land (Nat.land s (0xFFFFFFFF - WS_DLGFRAME)) (0xFFFFFFFF - WS_SYSMENU)

/-- Environment of one capture_using_gdi_window_redir call
(advanced_capture.py, lines 494-652).  width and height come from
GetWindowRect (line 511); firstBuf is the pixel-byte content delivered by
the screen BitBlt and pwBuf the one delivered by the PrintWindow retry.
The raise flags select the exceptional exits: preManipRaise covers
GetWindowPlacement, GetWindowLong and SetWindowLong (lines 537-546,
raising before the style is modified), setPosRaise the SetWindowPos at
line 549, bitbltRaise the BitBlt at line 555 (all three are caught by
the inner except at line 570), fallbackBitbltRaise the direct BitBlt at
line 575 inside that handler, pwRaise the PrintWindow retry block
(lines 609-637), and saveRaise the img.save at line 645. -/
structure RedirEnv where
  width : Nat
  height : Nat
  preManipRaise : Bool
  setPosRaise : Bool
  bitbltRaise : Bool
  fallbackBitbltRaise : Bool
  firstBuf : List Nat
  pwRaise : Bool
  pwBuf : List Nat
  saveRaise : Bool
  deriving DecidableEq, Repr

/-- The mostly-black test of lines 602 and 630: the numpy mean of the
pixel bytes is below 5.  For a nonempty buffer mean buf < 5 holds iff
sum buf < 5 * length buf; for an empty buffer the numpy mean is NaN and
the comparison is false, matching 0 < 0. -/
def mostlyBlack (buf : List Nat) : Bool :=
  buf.sum < 5 * buf.length

/-- Result of one capture_using_gdi_window_redir call: the saved image
bytes (None when the call returned None), the final window state, and
whether the PrintWindow retry block ran. -/
structure RedirResult where
  result : Option (List Nat)
  window : WinState
  printWindowTried : Bool
  deriving DecidableEq, Repr

/-- Model of AdvancedScreenCapture.capture_using_gdi_window_redir
(advanced_capture.py, lines 494-652).  Branch map:
lines 515-517, a zero-area window returns None untouched;
lines 535-568, inner try: the placement and style are read, the style is
set to the temporary value (line 546), SetWindowPos raises the window to
the top (line 549), BitBlt captures (line 555), and only then are the
original style, placement and foreground restored (lines 563-568); when
any of those steps raises, the except handler at line 570 restores
NOTHING and instead tries one direct screen BitBlt (line 575); if that
also raises the function returns None (line 583), still without any
restore;
lines 600-640: when the captured bytes are mostly black, one PrintWindow
retry runs and, when its block does not raise, its image replaces the
first one; the retry outcome is only logged, never turned into a
failure;
lines 642-648: whatever image is current is saved and its path returned;
a raise inside save lands in the outer except (line 650) and returns
None. -/
def capture_using_gdi_window_redir (w0 : WinState) (env : RedirEnv) : RedirResult :=
  if env.width = 0 ∨ env.height = 0 then
    { result := none, window := w0, printWindowTried := false }
  else
    let step1 : WinState × Bool :=
      if env.preManipRaise then (w0, true)
      else
        let w1 := { w0 with style := tempStyle w0.style }
        if env.setPosRaise then (w1, true)
        else
          let w2 := { w1 with zTop := true }
          if env.bitbltRaise then (w2, true)
          else
            ({ w2 with style := w0.style, placement := w0.placement, zTop := false }, false)
    let wA := step1.1
    if step1.2 = true ∧ env.fallbackBitbltRaise = true then
      { result := none, window := wA, printWindowTried := false }
    else
      let img := env.firstBuf
      if mostlyBlack img then
        let img2 := if env.pwRaise then img else env.pwBuf
        if env.saveRaise then { result := none, window := wA, printWindowTried := true }
        else { result := some img2, window := wA, printWindowTried := true }
      else
        if env.saveRaise then { result := none, window := wA, printWindowTried := false }
        else { result := some img, window := wA, printWindowTried := false }

/-- A concrete all-black 2 by 2 capture environment (12 zero bytes) with
no exceptional exits; the PrintWindow retry also delivers an all-black
buffer, as a protected window would. -/
def envBlack : RedirEnv :=
  { width := 2, height := 2, preManipRaise := false, setPosRaise := false,
    bitbltRaise := false, fallbackBitbltRaise := false,
    firstBuf := [0, 0, 0, 0, 0, 0, 0, 0, 0, 0, 0, 0], pwRaise := false,
    pwBuf := [0, 0, 0, 0, 0, 0, 0, 0, 0, 0, 0, 0], saveRaise := false }

/-- A concrete environment in which the style manipulation succeeds but
the first BitBlt raises, and everything afterwards succeeds. -/
def envStyleBug : RedirEnv :=
  { width := 2, height := 2, preManipRaise := false, setPosRaise := false,
    bitbltRaise := true, fallbackBitbltRaise := false,
    firstBuf := [128, 128, 128], pwRaise := false, pwBuf := [], saveRaise := false }

/-- A concrete environment delivering a buffer of mean intensity exactly
128, with no exceptional exits. -/
def envGray : RedirEnv :=
  { width := 2, height := 1, preManipRaise := false, setPosRaise := false,
    bitbltRaise := false, fallbackBitbltRaise := false,
    firstBuf := [128, 128, 128, 128], pwRaise := false,
    pwBuf := [1, 2, 3], saveRaise := false }

end AdvCap

namespace DxgiDup

/-- On an initialized session, a timed-out acquire changes nothing: the
call returns None, the state is returned verbatim and no protocol event
(acquire, release, unmap, re-initialization, teardown) happens. -/
theorem capture_timeout_eq (st : DuplState) (env : CaptureEnv)
    (hinit : st.initialized = true) (ht : env.acquire = .timeout) :
    capture_screenshot st env =
      (none, st, { acquires := 0, releases := 0, unmaps := 0, initCalls := 0, cleanupCalls := 0 }) := by
  simp [capture_screenshot, hinit, ht]

/-- Iterating capture calls whose acquire times out leaves the session
state untouched. -/
theorem captureIter_timeout (st : DuplState) (envs : List CaptureEnv)
    (hinit : st.initialized = true) (ht : ∀ e ∈ envs, e.acquire = .timeout) :
    captureIter st envs = st := by
  induction envs with
  | nil => rfl
  | cons e rest ih =>
      have he : e.acquire = .timeout := ht e (List.mem_cons_self e rest)
      have hstep : (capture_screenshot st e).2.1 = st := by
        rw [capture_timeout_eq st e hinit he]
      calc captureIter st (e :: rest)
          = captureIter (capture_screenshot st e).2.1 rest := rfl
        _ = captureIter st rest := by rw [hstep]
        _ = st := ih fun x hx => ht x (List.mem_cons_of_mem e hx)

/-- Claim C1: on an initialized Duplication Session, every
capture_screenshot call releases the driver frame exactly as often as it
successfully acquired one, on every exit path (query failure, map failure,
convert or save failure, success); in particular a call whose
AcquireNextFrame succeeds executes ReleaseFrame exactly once before
returning. -/
theorem c1_acquire_release_paired (st : DuplState) (env : CaptureEnv)
    (hinit : st.initialized = true) :
    (capture_screenshot st env).2.2.releases = (capture_screenshot st env).2.2.acquires
    ∧ (env.acquire = .success → (capture_screenshot st env).2.2.releases = 1) := by
  obtain ⟨acq, q, m, c⟩ := env
  cases acq <;> cases q <;> cases m <;> cases c <;>
    simp [capture_screenshot, hinit]

/-- Witness for C1 at a concrete initialized session and an environment
whose acquire succeeds and whose convert-and-save step raises. -/
theorem c1_acquire_release_paired_witness :
    (capture_screenshot { freshState with initialized := true }
        { acquire := .success, queryTextureOk := true, mapOk := true,
          convertSaveOk := false }).2.2.releases
      = (capture_screenshot { freshState with initialized := true }
          { acquire := .success, queryTextureOk := true, mapOk := true,
            convertSaveOk := false }).2.2.acquires
    ∧ (AcquireOutcome.success = .success →
        (capture_screenshot { freshState with initialized := true }
            { acquire := .success, queryTextureOk := true, mapOk := true,
              convertSaveOk := false }).2.2.releases = 1) :=
  c1_acquire_release_paired _ _ (by decide)

/-- Claim C6: a timed-out AcquireFrame is non-fatal: the call returns the
no-new-frame value None without raising, the session state (device,
duplication object, staging texture, initialized flag) is unchanged and no
teardown or re-initialization happens; after any number of consecutive
timeouts a subsequent capture on the same session proceeds directly to a
successful acquire, with no initializer or teardown call. -/
theorem c6_timeout_nonfatal (st : DuplState) (envs : List CaptureEnv) (env2 : CaptureEnv)
    (hinit : st.initialized = true)
    (ht : ∀ e ∈ envs, e.acquire = .timeout)
    (hs : env2.acquire = .success) :
    (∀ e ∈ envs, capture_screenshot st e =
      (none, st, { acquires := 0, releases := 0, unmaps := 0, initCalls := 0, cleanupCalls := 0 }))
    ∧ captureIter st envs = st
    ∧ (capture_screenshot (captureIter st envs) env2).2.2.acquires = 1
    ∧ (capture_screenshot (captureIter st envs) env2).2.2.initCalls = 0
    ∧ (capture_screenshot (captureIter st envs) env2).2.2.cleanupCalls = 0 := by
  have hiter : captureIter st envs = st := captureIter_timeout st envs hinit ht
  refine ⟨fun e he => capture_timeout_eq st e hinit (ht e he), hiter, ?_, ?_, ?_⟩ <;>
    · rw [hiter]
      obtain ⟨acq, q, m, c⟩ := env2
      cases acq <;> cases q <;> cases m <;> cases c <;>
        simp_all [capture_screenshot]

/-- Witness for C6: two consecutive timeouts on a concrete initialized
session, followed by one successful acquire. -/
theorem c6_timeout_nonfatal_witness :
    (∀ e ∈ [({ acquire := .timeout, queryTextureOk := true, mapOk := true,
                convertSaveOk := true } : CaptureEnv),
            { acquire := .timeout, queryTextureOk := true, mapOk := true,
              convertSaveOk := true }],
      capture_screenshot { freshState with initialized := true } e =
        (none, { freshState with initialized := true },
          { acquires := 0, releases := 0, unmaps := 0, initCalls := 0, cleanupCalls := 0 }))
    ∧ captureIter { freshState with initialized := true }
        [{ acquire := .timeout, queryTextureOk := true, mapOk := true, convertSaveOk := true },
         { acquire := .timeout, queryTextureOk := true, mapOk := true, convertSaveOk := true }]
        = { freshState with initialized := true }
    ∧ (capture_screenshot (captureIter { freshState with initialized := true }
        [{ acquire := .timeout, queryTextureOk := true, mapOk := true, convertSaveOk := true },
         { acquire := .timeout, queryTextureOk := true, mapOk := true, convertSaveOk := true }])
        { acquire := .success, queryTextureOk := true, mapOk := true,
          convertSaveOk := true }).2.2.acquires = 1
    ∧ (capture_screenshot (captureIter { freshState with initialized := true }
        [{ acquire := .timeout, queryTextureOk := true, mapOk := true, convertSaveOk := true },
         { acquire := .timeout, queryTextureOk := true, mapOk := true, convertSaveOk := true }])
        { acquire := .success, queryTextureOk := true, mapOk := true,
          convertSaveOk := true }).2.2.initCalls = 0
    ∧ (capture_screenshot (captureIter { freshState with initialized := true }
        [{ acquire := .timeout, queryTextureOk := true, mapOk := true, convertSaveOk := true },
         { acquire := .timeout, queryTextureOk := true, mapOk := true, convertSaveOk := true }])
        { acquire := .success, queryTextureOk := true, mapOk := true,
          convertSaveOk := true }).2.2.cleanupCalls = 0 :=
  c6_timeout_nonfatal _ _ _ (by decide) (by decide) (by decide)

/-- Claim C7, counterexample: when DuplicateOutput reports the
maximum-duplicator-count condition (DXGI_ERROR_NOT_CURRENTLY_AVAILABLE,
source lines 400-402), _initialize_dxgi returns False directly without
running _cleanup, so the already created graphics device and device
context remain held: not every partially acquired resource is released,
contradicting the claim.  The initialized flag does stay false. -/
theorem c7_max_duplicator_leaks_device :
    ((initialize_dxgi
        { hwDeviceOk := true, warpDeviceOk := true, queryDxgiDeviceOk := true,
          getParentOk := true, enumOutputsOk := true, getOutputDescOk := true,
          queryOutput1Ok := true, duplicateOutput := .notCurrentlyAvailable,
          getDuplDescOk := true, createTextureOk := true } 1920 1080).1.device = true)
    ∧ ((initialize_dxgi
        { hwDeviceOk := true, warpDeviceOk := true, queryDxgiDeviceOk := true,
          getParentOk := true, enumOutputsOk := true, getOutputDescOk := true,
          queryOutput1Ok := true, duplicateOutput := .notCurrentlyAvailable,
          getDuplDescOk := true, createTextureOk := true } 1920 1080).1.deviceContext = true)
    ∧ ¬ resourcesReleased (initialize_dxgi
        { hwDeviceOk := true, warpDeviceOk := true, queryDxgiDeviceOk := true,
          getParentOk := true, enumOutputsOk := true, getOutputDescOk := true,
          queryOutput1Ok := true, duplicateOutput := .notCurrentlyAvailable,
          getDuplDescOk := true, createTextureOk := true } 1920 1080).1
    ∧ ((initialize_dxgi
        { hwDeviceOk := true, warpDeviceOk := true, queryDxgiDeviceOk := true,
          getParentOk := true, enumOutputsOk := true, getOutputDescOk := true,
          queryOutput1Ok := true, duplicateOutput := .notCurrentlyAvailable,
          getDuplDescOk := true, createTextureOk := true } 1920 1080).1.initialized = false) := by
  decide

/-- Claim C7 as amended: on every failing initialization the session
construction does not raise (the model of _initialize_dxgi is a total
function, mirroring the try..except wrapper at lines 316 and 442) and the
initialized flag ends false; on every failing path other than the
maximum-duplicator-count path all four session-owned resources are
released; on the maximum-duplicator-count path the device and the device
context remain held. -/
theorem c7_amended_init_failure_isolated (env : InitEnv) (sw sh : Nat)
    (hfail : (initialize_dxgi env sw sh).2 = false) :
    (initialize_dxgi env sw sh).1.initialized = false
    ∧ (¬ (reachesDuplicate env ∧ env.duplicateOutput = .notCurrentlyAvailable) →
        resourcesReleased (initialize_dxgi env sw sh).1)
    ∧ (reachesDuplicate env → env.duplicateOutput = .notCurrentlyAvailable →
        (initialize_dxgi env sw sh).1.device = true
        ∧ (initialize_dxgi env sw sh).1.deviceContext = true) := by
  obtain ⟨hw, warp, q, gp, eo, god, qo1, dup, gdd, ct⟩ := env
  cases dup <;>
    (simp only [initialize_dxgi] at hfail ⊢;
     split_ifs at hfail ⊢ <;>
       simp_all [cleanup, resourcesReleased, reachesDuplicate, freshState])

/-- Witness for the amended C7 at the concrete maximum-duplicator-count
environment. -/
theorem c7_amended_init_failure_isolated_witness :
    (initialize_dxgi
        { hwDeviceOk := true, warpDeviceOk := false, queryDxgiDeviceOk := true,
          getParentOk := true, enumOutputsOk := true, getOutputDescOk := true,
          queryOutput1Ok := true, duplicateOutput := .notCurrentlyAvailable,
          getDuplDescOk := true, createTextureOk := true } 800 600).1.initialized = false
    ∧ (¬ (reachesDuplicate
          { hwDeviceOk := true, warpDeviceOk := false, queryDxgiDeviceOk := true,
            getParentOk := true, enumOutputsOk := true, getOutputDescOk := true,
            queryOutput1Ok := true, duplicateOutput := .notCurrentlyAvailable,
            getDuplDescOk := true, createTextureOk := true }
        ∧ InitEnv.duplicateOutput
          { hwDeviceOk := true, warpDeviceOk := false, queryDxgiDeviceOk := true,
            getParentOk := true, enumOutputsOk := true, getOutputDescOk := true,
            queryOutput1Ok := true, duplicateOutput := .notCurrentlyAvailable,
            getDuplDescOk := true, createTextureOk := true } = .notCurrentlyAvailable) →
        resourcesReleased (initialize_dxgi
          { hwDeviceOk := true, warpDeviceOk := false, queryDxgiDeviceOk := true,
            getParentOk := true, enumOutputsOk := true, getOutputDescOk := true,
            queryOutput1Ok := true, duplicateOutput := .notCurrentlyAvailable,
            getDuplDescOk := true, createTextureOk := true } 800 600).1)
    ∧ (reachesDuplicate
          { hwDeviceOk := true, warpDeviceOk := false, queryDxgiDeviceOk := true,
            getParentOk := true, enumOutputsOk := true, getOutputDescOk := true,
            queryOutput1Ok := true, duplicateOutput := .notCurrentlyAvailable,
            getDuplDescOk := true, createTextureOk := true } →
        InitEnv.duplicateOutput
          { hwDeviceOk := true, warpDeviceOk := false, queryDxgiDeviceOk := true,
            getParentOk := true, enumOutputsOk := true, getOutputDescOk := true,
            queryOutput1Ok := true, duplicateOutput := .notCurrentlyAvailable,
            getDuplDescOk := true, createTextureOk := true } = .notCurrentlyAvailable →
        (initialize_dxgi
          { hwDeviceOk := true, warpDeviceOk := false, queryDxgiDeviceOk := true,
            getParentOk := true, enumOutputsOk := true, getOutputDescOk := true,
            queryOutput1Ok := true, duplicateOutput := .notCurrentlyAvailable,
            getDuplDescOk := true, createTextureOk := true } 800 600).1.device = true
        ∧ (initialize_dxgi
          { hwDeviceOk := true, warpDeviceOk := false, queryDxgiDeviceOk := true,
            getParentOk := true, enumOutputsOk := true, getOutputDescOk := true,
            queryOutput1Ok := true, duplicateOutput := .notCurrentlyAvailable,
            getDuplDescOk := true, createTextureOk := true } 800 600).1.deviceContext = true) :=
  c7_amended_init_failure_isolated _ 800 600 (by decide)

/-- Claim C3, code-bug witness: the conversion does not skip per-row
padding.  For a mapped texture of height 1 with RowPitch 12 and texture
width 2 (RowPitch exceeds width * 4 = 8 by one 4-byte padding element),
the produced image has 12 / 4 = 3 pixel columns, not 2: the padding
bytes at offsets 8-11 appear as a third pixel column.  The per-pixel
mapping itself is as the claim describes: with buf i = i, the first two
pixel columns read bytes (2, 1, 0) and (6, 5, 4), i.e. input offset
y * RowPitch + x * 4 with the channels reversed from
blue-green-red-alpha to red-green-blue. -/
theorem c3_conversion_keeps_padding_columns :
    (convertFrame (fun i => i) 1 12).map List.length = [3]
    ∧ convertFrame (fun i => i) 1 12 = [[[2, 1, 0], [6, 5, 4], [10, 9, 8]]]
    ∧ (3 : Nat) ≠ 2 := by
  decide

end DxgiDup

namespace EnhCap

/-- A chain in which every attempt fails yields no result. -/
theorem runChain_fails_none {a : Type} (l : List (Attempt a))
    (h : ∀ x ∈ l, fails x) : (runChain l).1 = none := by
  induction l with
  | nil => rfl
  | cons x rest ih =>
      have hx := h x (List.mem_cons_self x rest)
      have hrest : ∀ y ∈ rest, fails y := fun y hy => h y (List.mem_cons_of_mem x hy)
      cases x with
      | ok r =>
          cases r with
          | none => simpa [runChain] using ih hrest
          | some v => exact hx.elim
      | raised => simpa [runChain] using ih hrest

/-- The loop returns the first success: after a prefix of failing
attempts, the first successful attempt is invoked (as the
(length pre + 1)-st and last invocation) and its result is returned; the
attempts after it are never invoked. -/
theorem runChain_first_success {a : Type} (pre post : List (Attempt a)) (r : a)
    (hpre : ∀ x ∈ pre, fails x) :
    runChain (pre ++ .ok (some r) :: post) = (some r, pre.length + 1) := by
  induction pre with
  | nil => rfl
  | cons x rest ih =>
      have hx := hpre x (List.mem_cons_self x rest)
      have hrest : ∀ y ∈ rest, fails y := fun y hy => hpre y (List.mem_cons_of_mem x hy)
      cases x with
      | ok q =>
          cases q with
          | none => simp [runChain, ih hrest]
          | some v => exact hx.elim
      | raised => simp [runChain, ih hrest]

/-- Claim C5: the orchestrator loop runs the configured chain in its
fixed order, invokes each backend at most once, returns the result of
the first backend that succeeds, and invokes no later backend after a
success; in particular for a chain of three backends whose first two
fail, the third is invoked exactly once (the invocation count is 3) and
its result is returned. -/
theorem c5_first_success_returned {a : Type} (pre post : List (Attempt a)) (r : a)
    (hpre : ∀ x ∈ pre, fails x) (b1 b2 : Attempt a)
    (hb1 : fails b1) (hb2 : fails b2) :
    runChain (pre ++ .ok (some r) :: post) = (some r, pre.length + 1)
    ∧ runChain [b1, b2, .ok (some r)] = (some r, 3) := by
  refine ⟨runChain_first_success pre post r hpre, ?_⟩
  have h3 := runChain_first_success [b1, b2] [] r ?_
  · simpa using h3
  · intro x hx
    rcases List.mem_cons.mp hx with h | hx2
    · subst h
      exact hb1
    rcases List.mem_cons.mp hx2 with h | hx3
    · subst h
      exact hb2
    · exact absurd hx3 (List.not_mem_nil x)

/-- Witness for C5: a chain whose first backend returns None and whose
second raises, followed by a succeeding backend and one more backend
that is never reached. -/
theorem c5_first_success_returned_witness :
    runChain ([.ok none, .raised] ++ .ok (some (7, 7)) :: [.ok (some (9, 9))])
      = (some ((7 : Nat), (7 : Nat)), [(.ok none : Attempt (Nat × Nat)), .raised].length + 1)
    ∧ runChain [(.ok none : Attempt (Nat × Nat)), .raised, .ok (some (7, 7))]
      = (some ((7 : Nat), (7 : Nat)), 3) :=
  c5_first_success_returned [.ok none, .raised] [.ok (some (9, 9))] (7, 7)
    (by decide) (.ok none) .raised (by decide) (by decide)

/-- Claim C10: when a window-targeted request exhausts all five
window-capture methods, EnhancedScreenCapture.capture_screenshot falls
back to one full-screen capture and returns its image as the result of
the request, whose dimensions are those of the whole screen; only when
the full-screen fallback also fails (returns None or raises) does the
request return None. -/
theorem c10_fullscreen_fallback (env : EnhEnv) (h sw sh : Nat)
    (hw : env.windowHandle = some h)
    (hfail : ∀ x ∈ methodChain env, fails x) :
    (env.fullScreen = .ok (some (sw, sh)) → capture_screenshot env = some (sw, sh))
    ∧ (fails env.fullScreen → capture_screenshot env = none) := by
  have hnone := runChain_fails_none (methodChain env) hfail
  constructor
  · intro hfs
    simp [capture_screenshot, hnone, hw, hfs]
  · intro hfs
    cases hfs2 : env.fullScreen with
    | ok r =>
        cases r with
        | some v =>
            rw [hfs2] at hfs
            exact hfs.elim
        | none => simp [capture_screenshot, hnone, hw, hfs2]
    | raised => simp [capture_screenshot, hnone, hw, hfs2]

/-- Witness for C10: a request for window 3 on a 1920 by 1080 screen
whose five window methods all fail. -/
theorem c10_fullscreen_fallback_witness :
    (envWindowFallback.fullScreen = .ok (some (1920, 1080)) →
      capture_screenshot envWindowFallback = some (1920, 1080))
    ∧ (fails envWindowFallback.fullScreen →
      capture_screenshot envWindowFallback = none) :=
  c10_fullscreen_fallback envWindowFallback 3 1920 1080 rfl (by decide)

/-- Claim C8: the temporary-affinity backend leaves the display affinity
of an exclude-from-capture window exactly as it found it, on every exit
path: failing affinity read, exception during capture, conversion or
save, failing SetWindowDisplayAffinity permission, and the normal path.
The restore runs both at line 404 and in the except handler, and one
SetWindowDisplayAffinity permission governs the clear and the restore,
so the final affinity always equals the initial one. -/
theorem c8_affinity_restored (w : Win) (env : AffEnv)
    (hexc : w.affinity = WDA_EXCLUDEFROMCAPTURE) :
    (capture_using_bitblt_with_temporary_affinity w env).2.affinity = w.affinity := by
  obtain ⟨a⟩ := w
  obtain ⟨g, s, r, b, p, c, sv⟩ := env
  cases g <;> cases s <;> cases r <;> cases b <;> cases p <;> cases c <;> cases sv <;>
    simp_all [capture_using_bitblt_with_temporary_affinity, setAffinity, restoreAffinity,
      WDA_EXCLUDEFROMCAPTURE, WDA_NONE]

/-- Witness for C8: an exclude-from-capture window captured under an
environment whose conversion step raises, with working affinity calls. -/
theorem c8_affinity_restored_witness :
    (capture_using_bitblt_with_temporary_affinity { affinity := 0x11 }
        { getAffinityOk := true, setAffinityWorks := true, rectRaise := false,
          bitbltRaise := true, printWindowRaise := false, convertRaise := true,
          saveRaise := false }).2.affinity
      = ({ affinity := 0x11 } : Win).affinity :=
  c8_affinity_restored _ _ (by decide)

end EnhCap

namespace AccCtrl

/-- Claim C4, counterexample: when every backend fails, the value the
orchestration returns is None, and the transport handler turns it into
the fixed response status error, message "Failed to capture screenshot
with any method".  The all-None environment and the all-raised
environment produce the exact same value, so the returned failure names
neither the backends attempted nor any per-backend reason, contradicting
the claim of an aggregate failure naming every backend and its reason
(the never-throws half of the claim does hold). -/
theorem c4_failure_value_names_no_backend :
    EnhCap.capture_screenshot envAllNone = none
    ∧ EnhCap.capture_screenshot envAllRaise = none
    ∧ EnhCap.capture_screenshot envAllNone = EnhCap.capture_screenshot envAllRaise
    ∧ (handle_take_screenshot (.ok none)).status = "error"
    ∧ (handle_take_screenshot (.ok none)).message
        = "Failed to capture screenshot with any method" :=
  ⟨rfl, rfl, rfl, rfl, rfl⟩

/-- Claim C4 as amended: when every backend of the chain fails and the
full-screen fallback fails, the orchestrator returns the bare failure
value None (not an aggregate naming backends and reasons) and never
propagates an exception (every raising backend is absorbed by the
per-backend try..except, and the model is a total function); the
transport handler converts the None into its fixed error response, and
converts any exception raised into an error response as well, so no
exception reaches the caller. -/
theorem c4_amended_exhaustion_generic_failure (env : EnhCap.EnhEnv)
    (pathOf : Nat × Nat → String)
    (hfail : ∀ x ∈ EnhCap.methodChain env, EnhCap.fails x)
    (hfs : EnhCap.fails env.fullScreen) :
    EnhCap.capture_screenshot env = none
    ∧ handle_take_screenshot (.ok ((EnhCap.capture_screenshot env).map pathOf))
        = { status := "error", message := "Failed to capture screenshot with any method",
            screenshotPath := none }
    ∧ (∀ e : String, (handle_take_screenshot (.error e)).status = "error") := by
  have hnone := EnhCap.runChain_fails_none (EnhCap.methodChain env) hfail
  have hres : EnhCap.capture_screenshot env = none := by
    cases hwh : env.windowHandle with
    | none => simp [EnhCap.capture_screenshot, hnone, hwh]
    | some h =>
        cases hfs2 : env.fullScreen with
        | ok r =>
            cases r with
            | some v =>
                rw [hfs2] at hfs
                exact hfs.elim
            | none => simp [EnhCap.capture_screenshot, hnone, hwh, hfs2]
        | raised => simp [EnhCap.capture_screenshot, hnone, hwh, hfs2]
  refine ⟨hres, ?_, fun e => rfl⟩
  rw [hres]
  rfl

/-- Witness for the amended C4 at the environment in which every backend
and the fallback raise. -/
theorem c4_amended_exhaustion_generic_failure_witness :
    EnhCap.capture_screenshot envAllRaise = none
    ∧ handle_take_screenshot
        (.ok ((EnhCap.capture_screenshot envAllRaise).map (fun _ => "capture.png")))
        = { status := "error", message := "Failed to capture screenshot with any method",
            screenshotPath := none }
    ∧ (∀ e : String, (handle_take_screenshot (.error e)).status = "error") :=
  c4_amended_exhaustion_generic_failure envAllRaise (fun _ => "capture.png")
    (by decide) (by decide)

end AccCtrl

namespace AdvCap

/-- Claim C2, counterexample: an all-black captured buffer (twelve zero
bytes, mean 0, below the threshold 5) is not converted into a soft
failure.  The backend runs one PrintWindow retry, whose equally black
image is then saved and its path returned, so the call still reports
Success; the orchestrator loop returns on any truthy result, so it would
return this black capture instead of continuing to the next backend. -/
theorem c2_black_frame_returned_as_success :
    mostlyBlack envBlack.firstBuf = true
    ∧ (capture_using_gdi_window_redir { style := 0, placement := 0, zTop := false }
        envBlack).result = some [0, 0, 0, 0, 0, 0, 0, 0, 0, 0, 0, 0]
    ∧ (capture_using_gdi_window_redir { style := 0, placement := 0, zTop := false }
        envBlack).printWindowTried = true := by
  decide

/-- Claim C2 as amended: a captured buffer whose mean intensity is below
the threshold 5 triggers exactly one PrintWindow retry and the retried
image, black or not, is saved and returned as a Success; the low mean is
never converted into a failure.  A buffer whose mean is not below the
threshold (mean 128 in particular) is passed through unchanged, with no
retry. -/
theorem c2_amended_black_frame_retried_not_failed (w0 : WinState) (env : RedirEnv)
    (hdim : env.width ≠ 0 ∧ env.height ≠ 0)
    (hnr : env.preManipRaise = false ∧ env.setPosRaise = false ∧ env.bitbltRaise = false
      ∧ env.pwRaise = false ∧ env.saveRaise = false) :
    (mostlyBlack env.firstBuf = true →
      (capture_using_gdi_window_redir w0 env).printWindowTried = true
      ∧ (capture_using_gdi_window_redir w0 env).result = some env.pwBuf)
    ∧ (mostlyBlack env.firstBuf = false →
      (capture_using_gdi_window_redir w0 env).printWindowTried = false
      ∧ (capture_using_gdi_window_redir w0 env).result = some env.firstBuf) := by
  obtain ⟨h1, h2, h3, h4, h5⟩ := hnr
  constructor <;> intro hmb <;>
    simp [capture_using_gdi_window_redir, hdim.1, hdim.2, h1, h2, h3, h4, h5, hmb]

/-- Witness for the amended C2 at the mean-128 environment. -/
theorem c2_amended_black_frame_retried_not_failed_witness :
    (mostlyBlack envGray.firstBuf = true →
      (capture_using_gdi_window_redir { style := 0, placement := 0, zTop := false }
        envGray).printWindowTried = true
      ∧ (capture_using_gdi_window_redir { style := 0, placement := 0, zTop := false }
        envGray).result = some envGray.pwBuf)
    ∧ (mostlyBlack envGray.firstBuf = false →
      (capture_using_gdi_window_redir { style := 0, placement := 0, zTop := false }
        envGray).printWindowTried = false
      ∧ (capture_using_gdi_window_redir { style := 0, placement := 0, zTop := false }
        envGray).result = some envGray.firstBuf) :=
  c2_amended_black_frame_retried_not_failed _ envGray (by decide) (by decide)

/-- Claim C9, code-bug witness: the restore of the window state is not
unconditional.  For a window whose style word is WS_DLGFRAME, under an
environment in which the style change and SetWindowPos succeed but the
BitBlt at line 555 raises, the inner except handler (line 570) captures
via the direct BitBlt and the call returns a saved path, yet the window
is left with style 0 (the temporary style, WS_DLGFRAME cleared) and
still forced to the top of the z-order: the original style and placement
are never restored on this path. -/
theorem c9_style_not_restored_on_exception :
    (capture_using_gdi_window_redir { style := WS_DLGFRAME, placement := 7, zTop := false }
        envStyleBug).window.style = 0
    ∧ WS_DLGFRAME ≠ 0
    ∧ (capture_using_gdi_window_redir { style := WS_DLGFRAME, placement := 7, zTop := false }
        envStyleBug).window.zTop = true
    ∧ ((capture_using_gdi_window_redir { style := WS_DLGFRAME, placement := 7, zTop := false }
        envStyleBug).result).isSome = true := by
  decide

end AdvCap
